import Mathlib

/-!
Shallow embedding of the request-handling core of an OCI registry pull-through
cache (src/api.rs). External collaborators — the content `Repository`, the
upstream `dkregistry` client and serde — are modelled as oracle functions
collected in a `World`; the handlers return, next to their result, the ordered
trace of collaborator calls they performed. Byte streams are lists of chunk
results, as produced by `futures::Stream` of `Result<Bytes, E>`. Machine
integers: lengths are `Nat` (Rust `u64`/`usize`) and the repository `write`
length is an `Int` saturated at `i64::MAX`, mirroring
`try_into().unwrap_or(i64::MAX)`.
-/

set_option autoImplicit false

namespace OciRegistry

/-- Raw bytes, as in `web::Bytes`. -/
abbrev Bytes := List Nat

/-- One item of a fallible byte stream: `Ok(bytes)` or an error (its message). -/
abbrev Chunk := Except String Bytes

instance exceptDecEq {ε α : Type} [DecidableEq ε] [DecidableEq α] : DecidableEq (Except ε α) :=
  fun a b =>
    match a, b with
    | .ok x, .ok y =>
      if h : x = y then .isTrue (by rw [h]) else .isFalse (by intro hc; cases hc; exact h rfl)
    | .error x, .error y =>
      if h : x = y then .isTrue (by rw [h]) else .isFalse (by intro hc; cases hc; exact h rfl)
    | .ok _, .error _ => .isFalse (by intro hc; cases hc)
    | .error _, .ok _ => .isFalse (by intro hc; cases hc)

/-- The cached/returned manifest record (`crate::storage::Manifest`):
raw manifest bytes, media type, optional content digest. -/
structure Manifest where
  manifest : Bytes
  media_type : String
  digest : Option String
  deriving DecidableEq, Repr

/-- The handler error type (`api::error::Error`): `InvalidDigest` plus the
`From`-converted collaborator errors that `?` propagates
(dkregistry errors, serde_json errors, payload/drain errors). -/
inductive Error where
  | InvalidDigest
  | dkregistry (e : String)
  | serde (e : String)
  | payload (e : String)
  deriving DecidableEq, Repr

/-- A collaborator call, recorded in the order the handler performs it. -/
inductive Call where
  | repoRead (path : String) (maxAge : Nat)
  | authenticate (scopes : List String)
  | fetchManifest (image reference : String)
  | fetchBlob (image digest : String)
  | repoWrite (path : String) (data : List Chunk) (len : Int)
  deriving DecidableEq, Repr

def Call.isAuthenticate : Call → Bool
  | .authenticate _ => true
  | _ => false

def Call.isUpstreamFetch : Call → Bool
  | .fetchManifest _ _ => true
  | .fetchBlob _ _ => true
  | _ => false

def Call.isRepoWrite : Call → Bool
  | .repoWrite _ _ _ => true
  | _ => false

def Call.isFetchBlob : Call → Bool
  | .fetchBlob _ _ => true
  | _ => false

/-- Upstream blob response (`dkregistry` blob response): optional declared
size (`response.size()`) and the chunked body stream (`response.stream()`). -/
structure BlobResponse where
  size : Option Nat
  stream : List Chunk
  deriving DecidableEq, Repr

/-- Oracles for the external collaborators: the content repository
(`read`/`write`), serde_json (`deserialize`/`serialize`), and the upstream
client (`authenticate`, `get_raw_manifest_and_metadata`, `get_blob_response`).
Errors carry only their display message, which is all the handlers use. -/
structure World where
  repoRead : String → Nat → Except String (List Chunk)
  deserialize : Bytes → Except String Manifest
  serialize : Manifest → Bytes
  authenticate : List String → Except String Unit
  fetchManifest : String → String → Except String (Bytes × String × Option String)
  blobResponse : String → String → Except String BlobResponse
  repoWrite : String → List Chunk → Int → Except String Unit

/-- Rust `str::strip_prefix`: `some` of the remainder when `p` is a prefix of
`s`, `none` otherwise. -/
def stripPre (s p : String) : Option String :=
  if s.data.take p.data.length = p.data then some ⟨s.data.drop p.data.length⟩ else none

/-- Rust `str::starts_with` for string patterns. -/
def str_starts_with (s p : String) : Bool :=
  s.data.take p.data.length == p.data

/-- Value of `i64::MAX`. -/
def i64Max : Int := 9223372036854775807

/-- Rust `len.try_into().unwrap_or(i64::MAX)` for an unsigned `len`:
the conversion to `i64` fails exactly when the value exceeds `i64::MAX`. -/
def toI64Sat (n : Nat) : Int :=
  if (n : Int) ≤ i64Max then (n : Int) else i64Max

/-- Model of `TryStreamExt::try_collect`: concatenate the chunks, stopping at the first
error, which is returned. -/
def try_collect : List Chunk → Except String Bytes
  | [] => .ok []
  | .ok c :: rest =>
    match try_collect rest with
    | .ok b => .ok (c ++ b)
    | .error e => .error e
  | .error e :: _ => .error e

/-- Embedding of `authenticate_with_upstream` (api.rs line 28): authenticate the upstream
client for exactly the one given scope. -/
def authenticate_with_upstream (w : World) (scope : String) : Except String Unit :=
  w.authenticate [scope]

/-- Request type `ManifestRequest`: image name and reference, both in their canonical
string rendering (`ImageName` and `ImageReference` both `Display` to the
strings used for paths, scopes and upstream calls). -/
structure ManifestRequest where
  image : String
  reference : String
  deriving DecidableEq, Repr

/-- Path derivation `ManifestRequest::path`: `format!("/{}/manifests/{}", image, reference)`. -/
def ManifestRequest.path (r : ManifestRequest) : String :=
  "/" ++ r.image ++ "/manifests/" ++ r.reference

/-- Request type `BlobRequest`: image name and raw digest string. -/
structure BlobRequest where
  image : String
  digest : String
  deriving DecidableEq, Repr

/-- Path derivation `BlobRequest::path`: `format!("/{}/blobs/{}", image, digest)`. -/
def BlobRequest.path (r : BlobRequest) : String :=
  "/" ++ r.image ++ "/blobs/" ++ r.digest

/-- Embedding of `get_manifest` (api.rs lines 53–76). Here `none` models a panic of
`strip_prefix("/").unwrap()`; otherwise the result is the returned
`Result<Manifest, Error>` paired with the ordered collaborator-call trace.
A `repo.read` error falls through to upstream (warned, not surfaced); a
drain or deserialize failure after a successful read propagates via `?`;
the write-back error is logged and swallowed. -/
def get_manifest (req : ManifestRequest) (max_age : Nat) (w : World) :
    Option (Except Error Manifest × List Call) :=
  match stripPre req.path "/" with
  | none => none
  | some path =>
    match w.repoRead path max_age with
    | .ok s =>
      match try_collect s with
      | .error e => some (.error (.payload e), [.repoRead path max_age])
      | .ok body =>
        match w.deserialize body with
        | .error e => some (.error (.serde e), [.repoRead path max_age])
        | .ok manifest => some (.ok manifest, [.repoRead path max_age])
    | .error _ =>
      let scope := "repository:" ++ req.image ++ ":pull"
      match authenticate_with_upstream w scope with
      | .error e => some (.error (.dkregistry e), [.repoRead path max_age, .authenticate [scope]])
      | .ok _ =>
        match w.fetchManifest req.image req.reference with
        | .error e => some (.error (.dkregistry e),
            [.repoRead path max_age, .authenticate [scope],
             .fetchManifest req.image req.reference])
        | .ok (bytes, media_type, digest) =>
          let manifest : Manifest := ⟨bytes, media_type, digest⟩
          let body := w.serialize manifest
          let len := toI64Sat body.length
          let tr := [Call.repoRead path max_age, .authenticate [scope],
                     .fetchManifest req.image req.reference,
                     .repoWrite path [Except.ok body] len]
          match w.repoWrite path [Except.ok body] len with
          | .error _ => some (.ok manifest, tr)
          | .ok _ => some (.ok manifest, tr)

/-- Outcome of the `blob` handler short of the spawned tasks: either the cached
stream served directly, or the proxied fan-out with the upstream stream, the
`u64` length (`response.size().unwrap_or_default()`) and the request path the
cache-write task receives. -/
inductive BlobOutcome where
  | cached (s : List Chunk)
  | proxied (upstream : List Chunk) (len : Nat) (req_path : String)
  deriving DecidableEq, Repr

/-- Embedding of `blob` (api.rs lines 101–147) up to spawning: digest guard, cache read,
authenticate, upstream blob request. The fan-out tasks are modelled separately
by `produce` and `cache_write_task` on the `proxied` outcome. -/
def blob (req : BlobRequest) (max_age : Nat) (w : World) :
    Option (Except Error BlobOutcome × List Call) :=
  if str_starts_with req.digest "sha256:" = false then
    some (.error .InvalidDigest, [])
  else
    match stripPre req.path "/" with
    | none => none
    | some storage_path =>
      match w.repoRead storage_path max_age with
      | .ok s => some (.ok (.cached s), [.repoRead storage_path max_age])
      | .error _ =>
        let scope := "repository:" ++ req.image ++ ":pull"
        match authenticate_with_upstream w scope with
        | .error e => some (.error (.dkregistry e),
            [.repoRead storage_path max_age, .authenticate [scope]])
        | .ok _ =>
          match w.blobResponse req.image req.digest with
          | .error e => some (.error (.dkregistry e),
              [.repoRead storage_path max_age, .authenticate [scope],
               .fetchBlob req.image req.digest])
          | .ok resp =>
            let len := resp.size.getD 0
            some (.ok (.proxied resp.stream len req.path),
              [.repoRead storage_path max_age, .authenticate [scope],
               .fetchBlob req.image req.digest])

/-- The chunk wrapping done by the producer task: `Ok(v)` passes through, an error is
logged and wrapped into `ArcError::from(e)` (message preserved). -/
def wrap_chunk : Chunk → Chunk
  | .ok v => .ok v
  | .error e => .error e

/-- The spawned producer loop (api.rs lines 122–136). `alive i` tells whether
at least one receiver is still attached when the producer attempts its `i`-th
broadcast (an `async_broadcast` send fails exactly when every receiver has been
dropped). Returns the sequence of items actually published and the number of
chunks pulled from the upstream stream: each iteration pulls one chunk, wraps
it, and broadcasts it; a failed broadcast breaks the loop. -/
def produce : List Chunk → (Nat → Bool) → Nat → List Chunk × Nat
  | [], _, _ => ([], 0)
  | c :: rest, alive, i =>
    if alive i then
      let p := produce rest alive (i + 1)
      (wrap_chunk c :: p.1, p.2 + 1)
    else
      ([], 1)

/-- Receiver liveness induced by the two consumer handles of the fan-out: the
client stream stays for `d1` items and the receiver of the cache writer for `d2`
items; a broadcast succeeds while either is still attached. -/
def aliveOf (d1 d2 : Nat) : Nat → Bool :=
  fun i => decide (i < d1) || decide (i < d2)

/-- What each of the two consumers observes: `async_broadcast` receivers see
every published item, in publication order, until they are dropped. -/
def fanout (chunks : List Chunk) (d1 d2 : Nat) : List Chunk × List Chunk :=
  let pub := (produce chunks (aliveOf d1 d2) 0).1
  (pub.take d1, pub.take d2)

/-- The spawned cache-write task (api.rs lines 140–144): strips the leading
slash from the request path (`none` models the `unwrap` panic) and writes the
data its receiver observed, with the length saturated at `i64::MAX`; a write
error is logged and swallowed. -/
def cache_write_task (req_path : String) (rxData : List Chunk) (len : Nat) :
    Option Call :=
  match stripPre req_path "/" with
  | none => none
  | some p => some (Call.repoWrite p rxData (toI64Sat len))

/-- The collaborator-call trace of a handler run (empty for a modelled panic). -/
def runTrace {α : Type} (r : Option (Except Error α × List Call)) : List Call :=
  match r with
  | none => []
  | some x => x.2

theorem stripPre_slash (s : String) : stripPre ("/" ++ s) "/" = some s := by
  have h : ("/" ++ s).data = '/' :: s.data := by
    rw [String.data_append]; rfl
  simp only [stripPre, h]
  norm_num [List.take, List.drop]

theorem manifest_path_eq (r : ManifestRequest) :
    r.path = "/" ++ (r.image ++ "/manifests/" ++ r.reference) := by
  apply String.ext
  simp [ManifestRequest.path, String.data_append]

theorem blob_path_eq (r : BlobRequest) :
    r.path = "/" ++ (r.image ++ "/blobs/" ++ r.digest) := by
  apply String.ext
  simp [BlobRequest.path, String.data_append]

theorem stripPre_manifest_path (r : ManifestRequest) :
    stripPre r.path "/" = some (r.image ++ "/manifests/" ++ r.reference) := by
  rw [manifest_path_eq, stripPre_slash]

theorem stripPre_blob_path (r : BlobRequest) :
    stripPre r.path "/" = some (r.image ++ "/blobs/" ++ r.digest) := by
  rw [blob_path_eq, stripPre_slash]

/-- C10: every derived storage path — `/{image}/manifests/{reference}` for a
`ManifestRequest`, `/{image}/blobs/{digest}` for a `BlobRequest` — begins with
the character `/`, so each `strip_prefix("/").unwrap()` in `get_manifest` and
`blob` (the read path and the cache-write task alike) succeeds and never
panics. -/
theorem request_paths_start_with_slash :
    (∀ r : ManifestRequest, r.path.data.head? = some '/' ∧ (stripPre r.path "/").isSome)
    ∧ (∀ r : BlobRequest, r.path.data.head? = some '/' ∧ (stripPre r.path "/").isSome
        ∧ (cache_write_task r.path [] 0).isSome) := by
  constructor
  · intro r
    refine ⟨?_, by rw [stripPre_manifest_path]; rfl⟩
    rw [manifest_path_eq, String.data_append]
    rfl
  · intro r
    refine ⟨?_, by rw [stripPre_blob_path]; rfl, ?_⟩
    · rw [blob_path_eq, String.data_append]
      rfl
    · simp only [cache_write_task, stripPre_blob_path]
      rfl

/-- A fresh, well-formed cached manifest used by concrete runs. -/
def mHit : Manifest :=
  ⟨[1, 2, 3], "application/vnd.oci.image.manifest.v1+json", some "sha256:abc"⟩

/-- World with a cache hit whose record deserializes to `mHit`; every upstream
oracle would error if it were (wrongly) consulted. -/
def w1 : World :=
  { repoRead := fun _ _ => .ok [.ok [123]]
  , deserialize := fun b => if b = [123] then .ok mHit else .error "bad json"
  , serialize := fun _ => []
  , authenticate := fun _ => .error "unexpected"
  , fetchManifest := fun _ _ => .error "unexpected"
  , blobResponse := fun _ _ => .error "unexpected"
  , repoWrite := fun _ _ _ => .error "unexpected" }

/-- C1: when the cached record at the derived path is fresh and well-formed
(`repo.read` succeeds, the drained bytes deserialize as a `Manifest`),
`get_manifest` returns exactly that cached `Manifest` and its trace is the
single `repo.read` — no `authenticate`, no upstream fetch, no cache write. -/
theorem manifest_cache_hit_serves_cache (req : ManifestRequest) (max_age : Nat) (w : World)
    (p : String) (s : List Chunk) (b : Bytes) (m : Manifest)
    (hp : stripPre req.path "/" = some p)
    (hread : w.repoRead p max_age = .ok s)
    (hdrain : try_collect s = .ok b)
    (hde : w.deserialize b = .ok m) :
    get_manifest req max_age w = some (.ok m, [.repoRead p max_age])
    ∧ ∀ c ∈ runTrace (get_manifest req max_age w),
        c.isAuthenticate = false ∧ c.isUpstreamFetch = false ∧ c.isRepoWrite = false := by
  have h : get_manifest req max_age w = some (.ok m, [.repoRead p max_age]) := by
    simp only [get_manifest, hp, hread, hdrain, hde]
  refine ⟨h, ?_⟩
  intro c hc
  simp only [h, runTrace, List.mem_singleton] at hc
  subst hc
  exact ⟨rfl, rfl, rfl⟩

/-- Witness for C1 at a concrete request and world. -/
theorem manifest_cache_hit_serves_cache_witness :
    get_manifest ⟨"lib/app", "latest"⟩ 5 w1
      = some (.ok mHit, [.repoRead "lib/app/manifests/latest" 5])
    ∧ ∀ c ∈ runTrace (get_manifest ⟨"lib/app", "latest"⟩ 5 w1),
        c.isAuthenticate = false ∧ c.isUpstreamFetch = false ∧ c.isRepoWrite = false :=
  manifest_cache_hit_serves_cache ⟨"lib/app", "latest"⟩ 5 w1 "lib/app/manifests/latest"
    [.ok [123]] [123] mHit (by decide) rfl rfl rfl

/-- World with a cache hit whose stream fails to drain (`try_collect` errors). -/
def w2 : World := { w1 with repoRead := fun _ _ => .ok [.error "io"] }

/-- World with a cache hit whose drained bytes fail JSON deserialization. -/
def w2c : World := { w1 with repoRead := fun _ _ => .ok [.ok [9]] }

/-- World where the cache always misses and the upstream succeeds. -/
def wUp : World :=
  { repoRead := fun _ _ => .error "not found"
  , deserialize := fun _ => .error "bad json"
  , serialize := fun m => m.manifest
  , authenticate := fun _ => .ok ()
  , fetchManifest := fun _ _ =>
      .ok ([10, 20], "application/vnd.docker.distribution.manifest.v2+json", some "sha256:def")
  , blobResponse := fun _ _ => .ok ⟨some 4, [.ok [1, 2], .ok [3, 4]]⟩
  , repoWrite := fun _ _ _ => .ok () }

/-- After a cache-read miss, `get_manifest` always authenticates next: its
trace begins with the read followed by the single-scope authenticate. -/
theorem get_manifest_miss_authenticates (req : ManifestRequest) (max_age : Nat) (w : World)
    (p : String) (er : String)
    (hp : stripPre req.path "/" = some p)
    (hread : w.repoRead p max_age = .error er) :
    ∃ rest, runTrace (get_manifest req max_age w)
      = Call.repoRead p max_age
        :: Call.authenticate ["repository:" ++ req.image ++ ":pull"] :: rest := by
  simp only [get_manifest, hp, hread, authenticate_with_upstream]
  repeat' split
  all_goals exact ⟨_, rfl⟩

/-- C2 counterexample: in `w2` the cached entry is read successfully but its
stream fails to drain; `get_manifest` surfaces the payload error to the client
and never authenticates or fetches upstream — it does not fall through as the
claim states. -/
theorem manifest_drain_error_not_cache_miss_cex :
    get_manifest ⟨"lib/app", "latest"⟩ 1 w2
      = some (.error (.payload "io"), [.repoRead "lib/app/manifests/latest" 1])
    ∧ (runTrace (get_manifest ⟨"lib/app", "latest"⟩ 1 w2)).all
        (fun c => !c.isAuthenticate && !c.isUpstreamFetch) = true := by
  exact ⟨by decide, by decide⟩

/-- C2 amended: only a `repository.read` failure is treated as a cache miss
(logged and falling through to authenticate/fetch). A failure to drain the
successfully-read stream, or to deserialize its bytes, is surfaced to the
client via `?` as a payload/serde error, with no upstream call and no write. -/
theorem manifest_cache_error_handling (req : ManifestRequest) (max_age : Nat) (w : World)
    (p : String)
    (hp : stripPre req.path "/" = some p) :
    (∀ er, w.repoRead p max_age = .error er →
      ∃ rest, runTrace (get_manifest req max_age w)
        = Call.repoRead p max_age
          :: Call.authenticate ["repository:" ++ req.image ++ ":pull"] :: rest)
    ∧ (∀ s e, w.repoRead p max_age = .ok s → try_collect s = .error e →
      get_manifest req max_age w = some (.error (.payload e), [.repoRead p max_age]))
    ∧ (∀ s b e, w.repoRead p max_age = .ok s → try_collect s = .ok b →
        w.deserialize b = .error e →
      get_manifest req max_age w = some (.error (.serde e), [.repoRead p max_age])) := by
  refine ⟨?_, ?_, ?_⟩
  · intro er hread
    exact get_manifest_miss_authenticates req max_age w p er hp hread
  · intro s e hread hdrain
    simp only [get_manifest, hp, hread, hdrain]
  · intro s b e hread hdrain hde
    simp only [get_manifest, hp, hread, hdrain, hde]

/-- Witness for the amended C2: the read-error fallthrough in `wUp`, the
drain-error surface in `w2`, and the deserialize-error surface in `w2c`, each
at a concrete request. -/
theorem manifest_cache_error_handling_witness :
    (∃ rest, runTrace (get_manifest ⟨"lib/app", "latest"⟩ 1 wUp)
      = Call.repoRead "lib/app/manifests/latest" 1
        :: Call.authenticate ["repository:lib/app:pull"] :: rest)
    ∧ get_manifest ⟨"lib/app", "latest"⟩ 1 w2
        = some (.error (.payload "io"), [.repoRead "lib/app/manifests/latest" 1])
    ∧ get_manifest ⟨"lib/app", "latest"⟩ 1 w2c
        = some (.error (.serde "bad json"), [.repoRead "lib/app/manifests/latest" 1]) :=
  ⟨(manifest_cache_error_handling ⟨"lib/app", "latest"⟩ 1 wUp
      "lib/app/manifests/latest" (by decide)).1 "not found" rfl
  , (manifest_cache_error_handling ⟨"lib/app", "latest"⟩ 1 w2
      "lib/app/manifests/latest" (by decide)).2.1 [.error "io"] "io" rfl rfl
  , (manifest_cache_error_handling ⟨"lib/app", "latest"⟩ 1 w2c
      "lib/app/manifests/latest" (by decide)).2.2 [.ok [9]] [9] "bad json" rfl rfl rfl⟩

/-- C3: a blob request whose digest does not start with `sha256:` is rejected
with `InvalidDigest` and an empty call trace — zero Repository calls and zero
upstream calls (no read, no authenticate, no fetch). -/
theorem blob_invalid_digest_rejected (req : BlobRequest) (max_age : Nat) (w : World)
    (h : str_starts_with req.digest "sha256:" = false) :
    blob req max_age w = some (.error .InvalidDigest, []) := by
  simp [blob, h]

/-- Witness for C3: the scenario from the spec, digest `md5:deadbeef`. -/
theorem blob_invalid_digest_rejected_witness :
    blob ⟨"lib/myapp", "md5:deadbeef"⟩ 1 w1 = some (.error .InvalidDigest, []) :=
  blob_invalid_digest_rejected ⟨"lib/myapp", "md5:deadbeef"⟩ 1 w1 (by decide)

/-- C4: once the upstream manifest fetch has succeeded, `get_manifest` returns
that manifest with the identical trace for every write-back oracle: a
`repo.write` failure is logged and swallowed and never changes the
client-observed result or turns the request into an error. -/
theorem manifest_write_back_error_swallowed (req : ManifestRequest) (max_age : Nat) (w : World)
    (p er : String) (b : Bytes) (mt : String) (dg : Option String)
    (hp : stripPre req.path "/" = some p)
    (hread : w.repoRead p max_age = .error er)
    (hauth : w.authenticate ["repository:" ++ req.image ++ ":pull"] = .ok ())
    (hfetch : w.fetchManifest req.image req.reference = .ok (b, mt, dg)) :
    ∀ wr : String → List Chunk → Int → Except String Unit,
      get_manifest req max_age { w with repoWrite := wr }
        = some (.ok ⟨b, mt, dg⟩,
            [.repoRead p max_age, .authenticate ["repository:" ++ req.image ++ ":pull"],
             .fetchManifest req.image req.reference,
             .repoWrite p [Except.ok (w.serialize ⟨b, mt, dg⟩)]
               (toI64Sat (w.serialize ⟨b, mt, dg⟩).length)]) := by
  intro wr
  simp only [get_manifest, hp, hread, authenticate_with_upstream, hauth, hfetch]
  split <;> rfl

/-- Witness for C4: in `wUp` the same request yields the identical successful
response under a failing write-back and under a succeeding one. -/
theorem manifest_write_back_error_swallowed_witness :
    get_manifest ⟨"lib/app", "latest"⟩ 1 { wUp with repoWrite := fun _ _ _ => .error "disk full" }
      = some (.ok ⟨[10, 20], "application/vnd.docker.distribution.manifest.v2+json",
            some "sha256:def"⟩,
          [.repoRead "lib/app/manifests/latest" 1, .authenticate ["repository:lib/app:pull"],
           .fetchManifest "lib/app" "latest",
           .repoWrite "lib/app/manifests/latest" [Except.ok [10, 20]] (toI64Sat 2)])
    ∧ get_manifest ⟨"lib/app", "latest"⟩ 1 { wUp with repoWrite := fun _ _ _ => .ok () }
      = some (.ok ⟨[10, 20], "application/vnd.docker.distribution.manifest.v2+json",
            some "sha256:def"⟩,
          [.repoRead "lib/app/manifests/latest" 1, .authenticate ["repository:lib/app:pull"],
           .fetchManifest "lib/app" "latest",
           .repoWrite "lib/app/manifests/latest" [Except.ok [10, 20]] (toI64Sat 2)]) :=
  ⟨manifest_write_back_error_swallowed ⟨"lib/app", "latest"⟩ 1 wUp
      "lib/app/manifests/latest" "not found" [10, 20]
      "application/vnd.docker.distribution.manifest.v2+json" (some "sha256:def")
      (by decide) rfl rfl rfl (fun _ _ _ => .error "disk full")
  , manifest_write_back_error_swallowed ⟨"lib/app", "latest"⟩ 1 wUp
      "lib/app/manifests/latest" "not found" [10, 20]
      "application/vnd.docker.distribution.manifest.v2+json" (some "sha256:def")
      (by decide) rfl rfl rfl (fun _ _ _ => .ok ())⟩

/-- After a cache-read miss, `blob` always authenticates next: its trace
begins with the read followed by the single-scope authenticate. -/
theorem blob_miss_authenticates (req : BlobRequest) (max_age : Nat) (w : World)
    (p er : String)
    (hd : str_starts_with req.digest "sha256:" = true)
    (hp : stripPre req.path "/" = some p)
    (hread : w.repoRead p max_age = .error er) :
    ∃ rest, runTrace (blob req max_age w)
      = Call.repoRead p max_age
        :: Call.authenticate ["repository:" ++ req.image ++ ":pull"] :: rest := by
  simp only [blob, hd, hp, hread, authenticate_with_upstream, Bool.true_eq_false, if_false]
  repeat' split
  all_goals exact ⟨_, rfl⟩

/-- C5: on a manifest or blob cache miss the upstream client is authenticated,
before any fetch, with exactly the single scope `repository:{image}:pull`
(the trace begins read-then-authenticate with that one-element scope list),
and an authentication failure short-circuits the request: the error is
surfaced and the trace ends at the authenticate — no fetch is attempted. -/
theorem upstream_auth_scope_and_short_circuit
    (mreq : ManifestRequest) (breq : BlobRequest) (a : Nat) (w : World)
    (pm pb erm erb : String)
    (hpm : stripPre mreq.path "/" = some pm)
    (hrm : w.repoRead pm a = .error erm)
    (hd : str_starts_with breq.digest "sha256:" = true)
    (hpb : stripPre breq.path "/" = some pb)
    (hrb : w.repoRead pb a = .error erb) :
    ((runTrace (get_manifest mreq a w)).take 2
        = [.repoRead pm a, .authenticate ["repository:" ++ mreq.image ++ ":pull"]])
    ∧ (∀ e, w.authenticate ["repository:" ++ mreq.image ++ ":pull"] = .error e →
        get_manifest mreq a w
          = some (.error (.dkregistry e),
              [.repoRead pm a, .authenticate ["repository:" ++ mreq.image ++ ":pull"]]))
    ∧ ((runTrace (blob breq a w)).take 2
        = [.repoRead pb a, .authenticate ["repository:" ++ breq.image ++ ":pull"]])
    ∧ (∀ e, w.authenticate ["repository:" ++ breq.image ++ ":pull"] = .error e →
        blob breq a w
          = some (.error (.dkregistry e),
              [.repoRead pb a, .authenticate ["repository:" ++ breq.image ++ ":pull"]])) := by
  refine ⟨?_, ?_, ?_, ?_⟩
  · obtain ⟨rest, hr⟩ := get_manifest_miss_authenticates mreq a w pm erm hpm hrm
    rw [hr]
    rfl
  · intro e hauth
    simp only [get_manifest, hpm, hrm, authenticate_with_upstream, hauth]
  · obtain ⟨rest, hr⟩ := blob_miss_authenticates breq a w pb erb hd hpb hrb
    rw [hr]
    rfl
  · intro e hauth
    simp only [blob, hd, hpb, hrb, authenticate_with_upstream, hauth,
      Bool.true_eq_false, if_false]

/-- World where the cache misses and upstream authentication fails. -/
def wAuthErr : World := { wUp with authenticate := fun _ => .error "401" }

/-- Witness for C5: auth-before-fetch in `wUp` and the auth-failure
short-circuit in `wAuthErr`, for a manifest and a blob request. -/
theorem upstream_auth_scope_and_short_circuit_witness :
    get_manifest ⟨"lib/app", "latest"⟩ 1 wAuthErr
      = some (.error (.dkregistry "401"),
          [.repoRead "lib/app/manifests/latest" 1, .authenticate ["repository:lib/app:pull"]])
    ∧ blob ⟨"lib/app", "sha256:abc"⟩ 1 wAuthErr
      = some (.error (.dkregistry "401"),
          [.repoRead "lib/app/blobs/sha256:abc" 1, .authenticate ["repository:lib/app:pull"]])
    ∧ (runTrace (get_manifest ⟨"lib/app", "latest"⟩ 1 wUp)).take 2
      = [.repoRead "lib/app/manifests/latest" 1, .authenticate ["repository:lib/app:pull"]]
    ∧ (runTrace (blob ⟨"lib/app", "sha256:abc"⟩ 1 wUp)).take 2
      = [.repoRead "lib/app/blobs/sha256:abc" 1, .authenticate ["repository:lib/app:pull"]] :=
  ⟨(upstream_auth_scope_and_short_circuit ⟨"lib/app", "latest"⟩ ⟨"lib/app", "sha256:abc"⟩ 1
      wAuthErr "lib/app/manifests/latest" "lib/app/blobs/sha256:abc" "not found" "not found"
      (by decide) rfl (by decide) (by decide) rfl).2.1 "401" rfl
  , (upstream_auth_scope_and_short_circuit ⟨"lib/app", "latest"⟩ ⟨"lib/app", "sha256:abc"⟩ 1
      wAuthErr "lib/app/manifests/latest" "lib/app/blobs/sha256:abc" "not found" "not found"
      (by decide) rfl (by decide) (by decide) rfl).2.2.2 "401" rfl
  , (upstream_auth_scope_and_short_circuit ⟨"lib/app", "latest"⟩ ⟨"lib/app", "sha256:abc"⟩ 1
      wUp "lib/app/manifests/latest" "lib/app/blobs/sha256:abc" "not found" "not found"
      (by decide) rfl (by decide) (by decide) rfl).1
  , (upstream_auth_scope_and_short_circuit ⟨"lib/app", "latest"⟩ ⟨"lib/app", "sha256:abc"⟩ 1
      wUp "lib/app/manifests/latest" "lib/app/blobs/sha256:abc" "not found" "not found"
      (by decide) rfl (by decide) (by decide) rfl).2.2.1⟩

/-- World where the cache misses and the upstream blob response advertises no
length (`response.size()` is `None`). -/
def w6 : World := { wUp with blobResponse := fun _ _ => .ok ⟨none, [.ok [1, 2]]⟩ }

/-- C6 counterexample: in `w6` the upstream advertises no blob length, yet the
length handed to the cache writer is `0` — `response.size().unwrap_or_default()`
— not an unknown/maximum sentinel: `0` is an ordinary (empty-blob) length and
differs from `i64::MAX`, which the code uses only to saturate an oversized
declared length. -/
theorem blob_absent_length_writes_zero_cex :
    blob ⟨"lib/app", "sha256:abc"⟩ 1 w6
      = some (.ok (.proxied [.ok [1, 2]] 0 "/lib/app/blobs/sha256:abc"),
          [.repoRead "lib/app/blobs/sha256:abc" 1, .authenticate ["repository:lib/app:pull"],
           .fetchBlob "lib/app" "sha256:abc"])
    ∧ cache_write_task "/lib/app/blobs/sha256:abc" [Except.ok [1, 2]] 0
      = some (.repoWrite "lib/app/blobs/sha256:abc" [Except.ok [1, 2]] 0)
    ∧ (0 : Int) ≠ i64Max := by
  exact ⟨by decide, by decide, by decide⟩

/-- C6 amended: on a blob cache miss the cache writer receives the length
`response.size().unwrap_or_default()`: the declared length when the upstream
advertises one (saturated to `i64::MAX` by the write-site conversion only when
it exceeds `i64::MAX`), and `0` — the `u64` default, not a maximum sentinel —
when it does not. -/
theorem blob_cache_write_length (req : BlobRequest) (a : Nat) (w : World)
    (p er : String) (resp : BlobResponse)
    (hd : str_starts_with req.digest "sha256:" = true)
    (hp : stripPre req.path "/" = some p)
    (hr : w.repoRead p a = .error er)
    (hauth : w.authenticate ["repository:" ++ req.image ++ ":pull"] = .ok ())
    (hresp : w.blobResponse req.image req.digest = .ok resp) :
    blob req a w
      = some (.ok (.proxied resp.stream (resp.size.getD 0) req.path),
          [.repoRead p a, .authenticate ["repository:" ++ req.image ++ ":pull"],
           .fetchBlob req.image req.digest])
    ∧ (∀ rx, cache_write_task req.path rx (resp.size.getD 0)
        = some (.repoWrite p rx (toI64Sat (resp.size.getD 0))))
    ∧ (∀ n, resp.size = some n → resp.size.getD 0 = n)
    ∧ (resp.size = none → resp.size.getD 0 = 0) := by
  refine ⟨?_, ?_, ?_, ?_⟩
  · simp only [blob, hd, hp, hr, authenticate_with_upstream, hauth, hresp,
      Bool.true_eq_false, if_false]
  · intro rx
    simp only [cache_write_task, hp]
  · intro n hn
    simp [hn]
  · intro hn
    simp [hn]

/-- Witness for the amended C6: a declared length of 4 in `wUp` and an absent
length in `w6`. -/
theorem blob_cache_write_length_witness :
    blob ⟨"lib/app", "sha256:abc"⟩ 1 wUp
      = some (.ok (.proxied [.ok [1, 2], .ok [3, 4]] ((some 4).getD 0) "/lib/app/blobs/sha256:abc"),
          [.repoRead "lib/app/blobs/sha256:abc" 1, .authenticate ["repository:lib/app:pull"],
           .fetchBlob "lib/app" "sha256:abc"])
    ∧ cache_write_task "/lib/app/blobs/sha256:abc" [Except.ok [1, 2], Except.ok [3, 4]]
        ((some 4).getD 0)
      = some (.repoWrite "lib/app/blobs/sha256:abc" [Except.ok [1, 2], Except.ok [3, 4]]
          (toI64Sat ((some 4).getD 0)))
    ∧ ((some 4 : Option Nat).getD 0 = 4)
    ∧ ((none : Option Nat).getD 0 = 0) :=
  ⟨(blob_cache_write_length ⟨"lib/app", "sha256:abc"⟩ 1 wUp "lib/app/blobs/sha256:abc"
      "not found" ⟨some 4, [.ok [1, 2], .ok [3, 4]]⟩ (by decide) (by decide) rfl rfl rfl).1
  , (blob_cache_write_length ⟨"lib/app", "sha256:abc"⟩ 1 wUp "lib/app/blobs/sha256:abc"
      "not found" ⟨some 4, [.ok [1, 2], .ok [3, 4]]⟩ (by decide) (by decide) rfl rfl rfl).2.1
      [Except.ok [1, 2], Except.ok [3, 4]]
  , (blob_cache_write_length ⟨"lib/app", "sha256:abc"⟩ 1 wUp "lib/app/blobs/sha256:abc"
      "not found" ⟨some 4, [.ok [1, 2], .ok [3, 4]]⟩ (by decide) (by decide) rfl rfl rfl).2.2.1
      4 rfl
  , (blob_cache_write_length ⟨"lib/app", "sha256:abc"⟩ 1 w6 "lib/app/blobs/sha256:abc"
      "not found" ⟨none, [.ok [1, 2]]⟩ (by decide) (by decide) rfl rfl rfl).2.2.2 rfl⟩

theorem wrap_chunk_eq (c : Chunk) : wrap_chunk c = c := by
  cases c <;> rfl

theorem map_wrap_chunk (l : List Chunk) : l.map wrap_chunk = l := by
  induction l with
  | nil => rfl
  | cons c rest ih => simp [wrap_chunk_eq, ih]

/-- While every broadcast attempt still has a live receiver, the producer
publishes every upstream chunk (wrapped) in order and pulls exactly the whole
stream. -/
theorem produce_all_alive (chunks : List Chunk) (alive : Nat → Bool) (i : Nat)
    (h : ∀ j, alive j = true) :
    produce chunks alive i = (chunks, chunks.length) := by
  induction chunks generalizing i with
  | nil => rfl
  | cons c rest ih =>
    simp [produce, h i, ih (i + 1), wrap_chunk_eq]

/-- With receivers live exactly below cutoff `m`, the producer starting at
index `i` publishes the first `m - i` wrapped chunks. -/
theorem produce_cutoff (chunks : List Chunk) (m i : Nat) :
    (produce chunks (fun j => decide (j < m)) i).1 = (chunks.map wrap_chunk).take (m - i) := by
  induction chunks generalizing i with
  | nil => simp [produce]
  | cons c rest ih =>
    by_cases h : i < m
    · have hm : m - i = (m - (i + 1)) + 1 := by omega
      simp [produce, h, ih (i + 1), hm]
    · have hm : m - i = 0 := by omega
      simp [produce, h, hm]

/-- With receivers live exactly below cutoff `m`, a producer starting at index
`i < m` with more than `m - i` chunks left pulls exactly `m - i + 1` chunks:
the `(m - i)`-th broadcast fails and it stops reading. -/
theorem produce_stops (chunks : List Chunk) (m i : Nat)
    (hi : i ≤ m) (hlen : m - i < chunks.length) :
    (produce chunks (fun j => decide (j < m)) i).2 = m - i + 1 := by
  induction chunks generalizing i with
  | nil => exact absurd hlen (by simp)
  | cons c rest ih =>
    rw [List.length_cons] at hlen
    by_cases h : i < m
    · have hm : m - i = (m - (i + 1)) + 1 := by omega
      have hrec := ih (i + 1) (by omega) (by omega)
      simp [produce, h, hrec, hm]
    · have hm : m - i = 0 := by omega
      simp [produce, h, hm]

/-- Receiver liveness of the fan-out equals the cutoff at `max d1 d2`: a
broadcast succeeds exactly while either consumer is still attached. -/
theorem aliveOf_eq_max (d1 d2 : Nat) :
    aliveOf d1 d2 = fun j => decide (j < max d1 d2) := by
  funext j
  by_cases h1 : j < d1 <;> by_cases h2 : j < d2 <;>
    simp [aliveOf, h1, h2, lt_max_iff]

/-- C7 counterexample: with all consumers live, an upstream read error is
published but is not the terminal item — the producer keeps pulling, so the
following chunk is published after it and the last item the consumers see is an `ok`
chunk, not the failure. -/
theorem producer_error_not_terminal_cex :
    produce [.error "boom", .ok [7]] (fun _ => true) 0 = ([.error "boom", .ok [7]], 2)
    ∧ (produce [.error "boom", .ok [7]] (fun _ => true) 0).1.head? = some (.error "boom")
    ∧ (produce [.error "boom", .ok [7]] (fun _ => true) 0).1.getLast?
        = some (.ok ([7] : Bytes)) := by
  exact ⟨by decide, by decide, by decide⟩

/-- C7 amended: while any consumer is live, the producer wraps an upstream
read error into an error value and publishes it at its upstream position, so
every live consumer observes the failure; but the producer does not stop on an
error item — it keeps pulling — so the error is the terminal published item
exactly when the upstream stream yields nothing after it. -/
theorem producer_publishes_errors (chunks : List Chunk) (alive : Nat → Bool)
    (h : ∀ j, alive j = true) :
    (produce chunks alive 0).1 = chunks
    ∧ (produce chunks alive 0).2 = chunks.length
    ∧ (∀ e, chunks.getLast? = some (.error e) →
        (produce chunks alive 0).1.getLast? = some (.error e)) := by
  have hp := produce_all_alive chunks alive 0 h
  refine ⟨by rw [hp], by rw [hp], ?_⟩
  intro e he
  rw [hp]
  exact he

/-- Witness for the amended C7: a stream ending in an error, all consumers
live. -/
theorem producer_publishes_errors_witness :
    (produce [.ok [1], .error "boom"] (fun _ => true) 0).1 = [.ok [1], .error "boom"]
    ∧ (produce [.ok [1], .error "boom"] (fun _ => true) 0).2
        = ([.ok [1], .error "boom"] : List Chunk).length
    ∧ (∀ e, ([.ok [1], .error "boom"] : List Chunk).getLast? = some (.error e) →
        (produce [.ok [1], .error "boom"] (fun _ => true) 0).1.getLast? = some (.error e)) :=
  producer_publishes_errors [.ok [1], .error "boom"] (fun _ => true) (fun _ => rfl)

/-- Everything the fan-out publishes: the producer over the two-consumer
liveness publishes exactly the first `max d1 d2` upstream chunks. -/
theorem fanout_published (chunks : List Chunk) (d1 d2 : Nat) :
    (produce chunks (aliveOf d1 d2) 0).1 = chunks.take (max d1 d2) := by
  rw [aliveOf_eq_max, produce_cutoff, map_wrap_chunk, Nat.sub_zero]

/-- C8: on a blob cache miss the upstream blob is fetched exactly once — the
trace holds a single `fetchBlob` — and the two broadcast consumers, the
client-facing stream (attached for `d1` items) and the receiver of the cache writer
(attached for `d2`), each observe exactly the first `d1` (resp. `d2`) upstream
chunks, same bytes in upstream order (FIFO per consumer); a consumer that
stays to the end observes the full upstream sequence whatever the drop
point of the other, and when both stay they observe identical sequences. -/
theorem blob_fanout_fifo (req : BlobRequest) (a : Nat) (w : World)
    (p er : String) (resp : BlobResponse)
    (hd : str_starts_with req.digest "sha256:" = true)
    (hp : stripPre req.path "/" = some p)
    (hr : w.repoRead p a = .error er)
    (hauth : w.authenticate ["repository:" ++ req.image ++ ":pull"] = .ok ())
    (hresp : w.blobResponse req.image req.digest = .ok resp) :
    ((runTrace (blob req a w)).countP Call.isFetchBlob = 1)
    ∧ (∀ chunks : List Chunk, ∀ d1 d2,
        (fanout chunks d1 d2).1 = chunks.take d1 ∧ (fanout chunks d1 d2).2 = chunks.take d2)
    ∧ (∀ chunks : List Chunk, ∀ d1 d2, chunks.length ≤ d2 →
        (fanout chunks d1 d2).2 = chunks)
    ∧ (∀ chunks : List Chunk, ∀ d1 d2, chunks.length ≤ d1 → chunks.length ≤ d2 →
        (fanout chunks d1 d2).1 = (fanout chunks d1 d2).2) := by
  have hobs : ∀ chunks : List Chunk, ∀ d1 d2,
      (fanout chunks d1 d2).1 = chunks.take d1 ∧ (fanout chunks d1 d2).2 = chunks.take d2 := by
    intro chunks d1 d2
    constructor
    · show ((produce chunks (aliveOf d1 d2) 0).1.take d1) = chunks.take d1
      rw [fanout_published, List.take_take, min_eq_left (le_max_left d1 d2)]
    · show ((produce chunks (aliveOf d1 d2) 0).1.take d2) = chunks.take d2
      rw [fanout_published, List.take_take, min_eq_left (le_max_right d1 d2)]
  refine ⟨?_, hobs, ?_, ?_⟩
  · have hb : blob req a w
        = some (.ok (.proxied resp.stream (resp.size.getD 0) req.path),
            [.repoRead p a, .authenticate ["repository:" ++ req.image ++ ":pull"],
             .fetchBlob req.image req.digest]) := by
      simp only [blob, hd, hp, hr, authenticate_with_upstream, hauth, hresp,
        Bool.true_eq_false, if_false]
    rw [hb]
    rfl
  · intro chunks d1 d2 h2
    rw [(hobs chunks d1 d2).2, List.take_of_length_le h2]
  · intro chunks d1 d2 h1 h2
    rw [(hobs chunks d1 d2).1, (hobs chunks d1 d2).2,
      List.take_of_length_le h1, List.take_of_length_le h2]

/-- Witness for C8: one fetch in `wUp`; concrete drop points on a three-chunk
stream — the cache-writer staying to the end observes all chunks although the
client drops after one, and with both staying the observations coincide. -/
theorem blob_fanout_fifo_witness :
    ((runTrace (blob ⟨"lib/app", "sha256:abc"⟩ 1 wUp)).countP Call.isFetchBlob = 1)
    ∧ ((fanout [.ok [1], .ok [2], .ok [3]] 1 3).1
          = ([.ok [1], .ok [2], .ok [3]] : List Chunk).take 1
        ∧ (fanout [.ok [1], .ok [2], .ok [3]] 1 3).2
          = ([.ok [1], .ok [2], .ok [3]] : List Chunk).take 3)
    ∧ ((fanout [.ok [1], .ok [2], .ok [3]] 1 3).2 = [.ok [1], .ok [2], .ok [3]])
    ∧ ((fanout [.ok [1], .ok [2], .ok [3]] 3 3).1 = (fanout [.ok [1], .ok [2], .ok [3]] 3 3).2) :=
  ⟨(blob_fanout_fifo ⟨"lib/app", "sha256:abc"⟩ 1 wUp "lib/app/blobs/sha256:abc" "not found"
      ⟨some 4, [.ok [1, 2], .ok [3, 4]]⟩ (by decide) (by decide) rfl rfl rfl).1
  , (blob_fanout_fifo ⟨"lib/app", "sha256:abc"⟩ 1 wUp "lib/app/blobs/sha256:abc" "not found"
      ⟨some 4, [.ok [1, 2], .ok [3, 4]]⟩ (by decide) (by decide) rfl rfl rfl).2.1
      [.ok [1], .ok [2], .ok [3]] 1 3
  , (blob_fanout_fifo ⟨"lib/app", "sha256:abc"⟩ 1 wUp "lib/app/blobs/sha256:abc" "not found"
      ⟨some 4, [.ok [1, 2], .ok [3, 4]]⟩ (by decide) (by decide) rfl rfl rfl).2.2.1
      [.ok [1], .ok [2], .ok [3]] 1 3 (by decide)
  , (blob_fanout_fifo ⟨"lib/app", "sha256:abc"⟩ 1 wUp "lib/app/blobs/sha256:abc" "not found"
      ⟨some 4, [.ok [1, 2], .ok [3, 4]]⟩ (by decide) (by decide) rfl rfl rfl).2.2.2
      [.ok [1], .ok [2], .ok [3]] 3 3 (by decide) (by decide)⟩

/-- C9: if both fan-out consumer handles are dropped before the upstream
stream completes — the client stream after `d1` items, the receiver of the
cache writer after `d2`, with `max d1 d2` strictly below the upstream chunk
count — the next broadcast of the producer fails, so it publishes only the first
`max d1 d2` chunks and pulls exactly `max d1 d2 + 1` from upstream: the chunk
in hand at the failed publish is the last read it ever issues. -/
theorem producer_stops_on_dropped_consumers (chunks : List Chunk) (d1 d2 : Nat)
    (hlen : max d1 d2 < chunks.length) :
    (produce chunks (aliveOf d1 d2) 0).1 = chunks.take (max d1 d2)
    ∧ (produce chunks (aliveOf d1 d2) 0).2 = max d1 d2 + 1 := by
  constructor
  · exact fanout_published chunks d1 d2
  · rw [aliveOf_eq_max]
    have h := produce_stops chunks (max d1 d2) 0 (Nat.zero_le _) (by simpa using hlen)
    simpa using h

/-- Witness for C9: client drops after one chunk, cache writer immediately;
on a three-chunk upstream the producer publishes one chunk and pulls two. -/
theorem producer_stops_on_dropped_consumers_witness :
    (produce [.ok [1], .ok [2], .ok [3]] (aliveOf 1 0) 0).1
      = ([.ok [1], .ok [2], .ok [3]] : List Chunk).take (max 1 0)
    ∧ (produce [.ok [1], .ok [2], .ok [3]] (aliveOf 1 0) 0).2 = max 1 0 + 1 :=
  producer_stops_on_dropped_consumers [.ok [1], .ok [2], .ok [3]] 1 0 (by decide)

end OciRegistry
